import Mathlib

/-!
Verification of `src/service.ts` (`KeycloakService`) from the
nestjs-keycloak-admin repository.

The TypeScript class is embedded as a pure state machine:

* `ServiceState` holds the mutable fields of the class
  (`tokenSet`, `issuerClient`, `umaConfiguration`, the managers, the
  admin client's bearer token) together with the immutable configuration
  (`options`, `baseUrl`, the keycloak-connect adapter settings).
* Network interactions performed by the wrapped libraries (the UMA
  configuration fetch, admin `client.auth`, `Issuer.discover`,
  `issuerClient.grant`, `issuerClient.refresh`) are modelled by an
  environment `Env` of oracle results; each call can fail (`Except`),
  matching an awaited promise that may reject.
* Each operation returns its TypeScript return value, the updated state,
  the ordered trace of side-effecting steps it performed (`Effect`), and
  the log entries it emitted.  Exceptions propagate as `Except.error`,
  keeping the state changes already performed, exactly as thrown
  exceptions do in the source.
* JavaScript truthiness of the optional strings / numbers tested by the
  source (`!refresh_token`, `this.tokenSet?.access_token`,
  `this.tokenSet.expires_at`) is modelled faithfully: `undefined`, the
  empty string and `0` are falsy.
* `TokenSet.expired` takes the current time explicitly; openid-client's
  `expired()` compares `expires_at` against the clock.
-/

namespace KeycloakAdmin

/-- JavaScript truthiness of an optional string: `undefined` and `""` are
falsy. -/
def strTruthy : Option String → Bool
  | none => false
  | some s => s != ""

/-- JavaScript truthiness of an optional number: `undefined` and `0` are
falsy. -/
def natTruthy : Option Nat → Bool
  | none => false
  | some n => n != 0

/-- openid-client `TokenSet`: access token, optional refresh token and
expiry marker, as used by `service.ts`. -/
structure TokenSet where
  access_token : Option String
  refresh_token : Option String
  expires_at : Option Nat
  deriving DecidableEq

/-- Modelled from openid-client: `tokenSet.expired()` holds when the
expiry marker has passed the current clock; a token set without
`expires_at` is not expired. -/
def TokenSet.expired (ts : TokenSet) (now : Nat) : Bool :=
  match ts.expires_at with
  | some t => t ≤ now
  | none => false

/-- `options.config` of `KeycloakModuleOptions`. -/
structure KeycloakConfig where
  baseUrl : String
  realmName : String
  deriving DecidableEq

/-- `options.credentials` of `KeycloakModuleOptions`. -/
structure KeycloakCredentials where
  clientId : String
  clientSecret : String
  deriving DecidableEq

/-- The constructor argument of `KeycloakService`. -/
structure KeycloakModuleOptions where
  config : KeycloakConfig
  credentials : KeycloakCredentials
  deriving DecidableEq

/-- The UMA2 well-known document, with the fields `service.ts` reads. -/
structure UMAConfiguration where
  issuer : String
  token_endpoint : String
  resource_registration_endpoint : String
  deriving DecidableEq

/-- The openid-client issuer client built at line 77 of `service.ts`. -/
structure IssuerClient where
  client_id : String
  client_secret : String
  deriving DecidableEq

/-- Thin wrapper constructed with the resource registration endpoint. -/
structure ResourceManager where
  endpoint : String
  deriving DecidableEq

/-- Thin wrapper constructed with the token endpoint. -/
structure PermissionManager where
  tokenEndpoint : String
  deriving DecidableEq

/-- The keycloak-connect adapter settings built in the constructor. -/
structure ConnectAdapter where
  resource : String
  realm : String
  confidentialPort : Nat
  sslRequired : String
  authServerUrl : String
  secret : String
  deriving DecidableEq

/-- Modelled from node `url.resolve(base, path)` restricted to how
`service.ts` uses it: `path` always starts with `/`, so the base URL's
path is replaced while its scheme and authority are kept. -/
def resolveUrl (base path : String) : String :=
  String.intercalate "/" ((base.splitOn "/").take 3) ++ path

/-- The fields of the `KeycloakService` instance. -/
structure ServiceState where
  options : KeycloakModuleOptions
  baseUrl : String
  connect : ConnectAdapter
  tokenSet : Option TokenSet
  issuerClient : Option IssuerClient
  umaConfiguration : Option UMAConfiguration
  resourceManager : Option ResourceManager
  permissionManager : Option PermissionManager
  adminAuthenticated : Bool
  adminAccessToken : Option String
  deriving DecidableEq

/-- Log levels of the nestjs `Logger` calls appearing in `service.ts`. -/
inductive LogLevel where
  | error
  | verbose
  | info
  deriving DecidableEq

/-- A message emitted through the nestjs `Logger`. -/
structure LogEntry where
  level : LogLevel
  msg : String
  deriving DecidableEq

/-- The side-effecting steps of `initialize` and `refreshGrant`, recorded
in order. -/
inductive Effect where
  | fetchUmaConfiguration
  | constructManagers
  | adminAuth
  | discoverIssuer
  | grantClientCredentials
  | refreshCall
  deriving DecidableEq

/-- Oracle for the network calls delegated to the wrapped libraries; an
`Except.error` result models a rejected promise. -/
structure Env where
  fetchUma : Except String UMAConfiguration
  adminAuth : Except String Unit
  discoverIssuer : String → Except String Unit
  grant : Except String TokenSet
  refresh : String → Except String TokenSet

/-- Equality of `Except` values is decidable when both components are. -/
instance instDecEqExcept {ε α : Type} [DecidableEq ε] [DecidableEq α] :
    DecidableEq (Except ε α) := fun a b =>
  match a, b with
  | Except.error e, Except.error f =>
    if h : e = f then Decidable.isTrue (by rw [h])
    else Decidable.isFalse (by intro hc; cases hc; exact h rfl)
  | Except.error _, Except.ok _ => Decidable.isFalse (by intro hc; cases hc)
  | Except.ok _, Except.error _ => Decidable.isFalse (by intro hc; cases hc)
  | Except.ok x, Except.ok y =>
    if h : x = y then Decidable.isTrue (by rw [h])
    else Decidable.isFalse (by intro hc; cases hc; exact h rfl)

/-- JavaScript `String.prototype.startsWith`, evaluated over the
character lists. -/
def jsStartsWith (s p : String) : Bool :=
  List.isPrefixOf p.data s.data

namespace KeycloakService

/-- The fields assigned by the constructor body (lines 33–53 of
`service.ts`) once the base URL check has passed. -/
def constructedState (options : KeycloakModuleOptions) : ServiceState :=
  { options := options
    baseUrl := resolveUrl options.config.baseUrl
      ("/auth/realms/" ++ options.config.realmName)
    connect :=
      { resource := options.credentials.clientId
        realm := options.config.realmName
        confidentialPort := 0
        sslRequired := "all"
        authServerUrl := resolveUrl options.config.baseUrl "/auth"
        secret := options.credentials.clientSecret }
    tokenSet := none
    issuerClient := none
    umaConfiguration := none
    resourceManager := none
    permissionManager := none
    adminAuthenticated := false
    adminAccessToken := none }

/-- Outcome of the constructor: the fresh state, or the thrown error. -/
def construct (options : KeycloakModuleOptions) : Except String ServiceState :=
  if jsStartsWith options.config.baseUrl "http" then
    Except.ok (constructedState options)
  else
    Except.error "Invalid base url. It should start with either http or https."

/-- Outcome of one `initialize` call: its result (`Except.error` = the
awaited call threw), the state after the call, the ordered effect trace,
and the emitted log entries. -/
structure InitOutcome where
  result : Except String Unit
  state : ServiceState
  effects : List Effect
  logs : List LogEntry
  deriving DecidableEq

/-- The `initialize` method of `KeycloakService`, lines 56–91 of
`service.ts` (the TypeScript name is a Lean keyword). -/
def initialization (env : Env) (s : ServiceState) : InitOutcome :=
  if s.umaConfiguration.isSome then
    { result := Except.ok (), state := s, effects := [], logs := [] }
  else
    match env.fetchUma with
    | Except.error e =>
      { result := Except.error e, state := s
        effects := [Effect.fetchUmaConfiguration], logs := [] }
    | Except.ok data =>
      let s1 : ServiceState :=
        { s with
          umaConfiguration := some data
          resourceManager := some ⟨data.resource_registration_endpoint⟩
          permissionManager := some ⟨data.token_endpoint⟩ }
      match env.adminAuth with
      | Except.error e =>
        { result := Except.error e, state := s1
          effects := [Effect.fetchUmaConfiguration, Effect.constructManagers,
            Effect.adminAuth]
          logs := [] }
      | Except.ok _ =>
        let s2 : ServiceState := { s1 with adminAuthenticated := true }
        match env.discoverIssuer data.issuer with
        | Except.error e =>
          { result := Except.error e, state := s2
            effects := [Effect.fetchUmaConfiguration, Effect.constructManagers,
              Effect.adminAuth, Effect.discoverIssuer]
            logs := [] }
        | Except.ok _ =>
          let s3 : ServiceState :=
            { s2 with
              issuerClient := some
                ⟨s.options.credentials.clientId, s.options.credentials.clientSecret⟩ }
          match env.grant with
          | Except.error e =>
            { result := Except.error e, state := s3
              effects := [Effect.fetchUmaConfiguration, Effect.constructManagers,
                Effect.adminAuth, Effect.discoverIssuer,
                Effect.grantClientCredentials]
              logs := [] }
          | Except.ok ts =>
            { result := Except.ok ()
              state := { s3 with tokenSet := some ts }
              effects := [Effect.fetchUmaConfiguration, Effect.constructManagers,
                Effect.adminAuth, Effect.discoverIssuer,
                Effect.grantClientCredentials]
              logs :=
                if natTruthy ts.expires_at then
                  [⟨LogLevel.info,
                    "Initial token expires at " ++ toString (ts.expires_at.getD 0)⟩]
                else [] }

/-- The `TokenSet | undefined | null` return type of `refreshGrant`. -/
inductive RefreshResult where
  | token (ts : TokenSet)
  | nullResult
  | undefinedResult
  deriving DecidableEq

/-- Outcome of one `refreshGrant` call. -/
structure RefreshOutcome where
  result : Except String RefreshResult
  state : ServiceState
  effects : List Effect
  logs : List LogEntry
  deriving DecidableEq

/-- `KeycloakService.refreshGrant`, lines 93–119 of `service.ts`.  `now`
is the clock consulted by `tokenSet.expired()`. -/
def refreshGrant (env : Env) (now : Nat) (s : ServiceState) : RefreshOutcome :=
  match s.tokenSet with
  | some ts =>
    if !ts.expired now then
      { result := Except.ok (RefreshResult.token ts), state := s
        effects := [], logs := [] }
    else
      match ts.refresh_token with
      | none =>
        { result := Except.ok RefreshResult.nullResult, state := s
          effects := []
          logs := [⟨LogLevel.verbose, "Grant token expired, refreshing."⟩,
            ⟨LogLevel.error, "Could not refresh token. Refresh token is missing."⟩] }
      | some rt =>
        if rt == "" then
          { result := Except.ok RefreshResult.nullResult, state := s
            effects := []
            logs := [⟨LogLevel.verbose, "Grant token expired, refreshing."⟩,
              ⟨LogLevel.error, "Could not refresh token. Refresh token is missing."⟩] }
        else
          match s.issuerClient with
          | none =>
            { result := Except.ok RefreshResult.undefinedResult
              state := { s with tokenSet := none }
              effects := []
              logs := [⟨LogLevel.verbose, "Grant token expired, refreshing."⟩] }
          | some _ =>
            match env.refresh rt with
            | Except.error e =>
              { result := Except.error e, state := s
                effects := [Effect.refreshCall]
                logs := [⟨LogLevel.verbose, "Grant token expired, refreshing."⟩] }
            | Except.ok newTs =>
              let s1 : ServiceState := { s with tokenSet := some newTs }
              let s2 : ServiceState :=
                if strTruthy newTs.access_token then
                  { s1 with adminAccessToken := newTs.access_token }
                else s1
              { result := Except.ok (RefreshResult.token newTs), state := s2
                effects := [Effect.refreshCall]
                logs := [⟨LogLevel.verbose, "Grant token expired, refreshing."⟩] }
  | none =>
    { result := Except.ok RefreshResult.nullResult, state := s
      effects := []
      logs := [⟨LogLevel.error, "Token set is missing. Could not refresh grant."⟩] }

end KeycloakService

/-! ### Concrete fixtures used by the witness theorems -/

/-- A well-formed configuration. -/
def options0 : KeycloakModuleOptions :=
  { config := { baseUrl := "http://keycloak.example.com/base", realmName := "master" }
    credentials := { clientId := "client", clientSecret := "secret" } }

/-- A configuration whose base URL lacks the `http` prefix. -/
def optionsBadUrl : KeycloakModuleOptions :=
  { config := { baseUrl := "ftp://keycloak.example.com", realmName := "master" }
    credentials := { clientId := "client", clientSecret := "secret" } }

/-- A freshly constructed service state (all optional fields absent). -/
def s0 : ServiceState :=
  { options := options0
    baseUrl := "http://keycloak.example.com/auth/realms/master"
    connect :=
      { resource := "client", realm := "master", confidentialPort := 0
        sslRequired := "all", authServerUrl := "http://keycloak.example.com/auth"
        secret := "secret" }
    tokenSet := none
    issuerClient := none
    umaConfiguration := none
    resourceManager := none
    permissionManager := none
    adminAuthenticated := false
    adminAccessToken := none }

/-- A concrete UMA configuration document. -/
def uma0 : UMAConfiguration :=
  { issuer := "http://keycloak.example.com/auth/realms/master"
    token_endpoint := "http://keycloak.example.com/auth/realms/master/token"
    resource_registration_endpoint :=
      "http://keycloak.example.com/auth/realms/master/authz/resource_set" }

/-- The token set granted at initialization time, expiring at time 50. -/
def tsInit : TokenSet :=
  { access_token := some "tokenA", refresh_token := some "refreshA"
    expires_at := some 50 }

/-- The token set produced by a refresh, expiring at time 200. -/
def tsNew : TokenSet :=
  { access_token := some "tokenB", refresh_token := some "refreshB"
    expires_at := some 200 }

/-- An environment in which every network call succeeds. -/
def envAllOk : Env :=
  { fetchUma := Except.ok uma0
    adminAuth := Except.ok ()
    discoverIssuer := fun _ => Except.ok ()
    grant := Except.ok tsInit
    refresh := fun _ => Except.ok tsNew }

/-- An environment in which the admin authentication call rejects. -/
def envAuthFails : Env :=
  { envAllOk with adminAuth := Except.error "admin authentication failed" }

/-- A state holding `tsInit` together with an issuer client. -/
def sWithToken : ServiceState :=
  { s0 with tokenSet := some tsInit, issuerClient := some ⟨"client", "secret"⟩ }

/-- A state holding an expired token set without a refresh token. -/
def sNoRefreshToken : ServiceState :=
  { s0 with
    tokenSet := some
      { access_token := some "tokenA", refresh_token := none, expires_at := some 50 }
    issuerClient := some ⟨"client", "secret"⟩ }

/-- A state holding `tsInit` but no issuer client. -/
def sNoIssuer : ServiceState := { s0 with tokenSet := some tsInit }

/-- States reachable from a construction with the given options through
any sequence of `initialize` and `refreshGrant` calls. -/
inductive Reachable (options : KeycloakModuleOptions) : ServiceState → Prop where
  | constructed (s : ServiceState)
      (h : KeycloakService.construct options = Except.ok s) :
      Reachable options s
  | initStep (env : Env) (s : ServiceState) (h : Reachable options s) :
      Reachable options (KeycloakService.initialization env s).state
  | refreshStep (env : Env) (now : Nat) (s : ServiceState)
      (h : Reachable options s) :
      Reachable options (KeycloakService.refreshGrant env now s).state

/-! ### Theorems -/

/-- Helper: `initialize` never changes the `options` field. -/
theorem initialization_preserves_options (env : Env) (s : ServiceState) :
    (KeycloakService.initialization env s).state.options = s.options := by
  rcases hu : s.umaConfiguration with _ | d
  · rcases hf : env.fetchUma with e | d
    · simp [KeycloakService.initialization, hu, hf]
    · rcases ha : env.adminAuth with e | u
      · simp [KeycloakService.initialization, hu, hf, ha]
      · rcases hd : env.discoverIssuer d.issuer with e | u'
        · simp [KeycloakService.initialization, hu, hf, ha, hd]
        · rcases hg : env.grant with e | ts
          · simp [KeycloakService.initialization, hu, hf, ha, hd, hg]
          · simp [KeycloakService.initialization, hu, hf, ha, hd, hg]
  · simp [KeycloakService.initialization, hu]

/-- Helper: `refreshGrant` never changes the `options` field. -/
theorem refreshGrant_preserves_options (env : Env) (now : Nat)
    (s : ServiceState) :
    (KeycloakService.refreshGrant env now s).state.options = s.options := by
  rcases hts : s.tokenSet with _ | ts
  · simp [KeycloakService.refreshGrant, hts]
  · cases hexp : ts.expired now
    · simp [KeycloakService.refreshGrant, hts, hexp]
    · rcases hrt : ts.refresh_token with _ | rt
      · simp [KeycloakService.refreshGrant, hts, hexp, hrt]
      · cases hrte : rt == ""
        · rcases hic : s.issuerClient with _ | ic
          · simp [KeycloakService.refreshGrant, hts, hexp, hrt, hrte, hic]
          · rcases hre : env.refresh rt with e | newTs
            · simp [KeycloakService.refreshGrant, hts, hexp, hrt, hrte, hic, hre]
            · cases hta : strTruthy newTs.access_token <;>
                simp [KeycloakService.refreshGrant, hts, hexp, hrt, hrte, hic,
                  hre, hta]
        · simp [KeycloakService.refreshGrant, hts, hexp, hrt, hrte]

/-- C1: whenever the cached token set exists and is not expired,
`refreshGrant` returns exactly that token set, leaves every field of the
service unchanged, performs no refresh call and emits no log. -/
theorem refreshGrant_fresh_token_returned_unchanged
    (env : Env) (now : Nat) (s : ServiceState) (ts : TokenSet)
    (hts : s.tokenSet = some ts) (hexp : ts.expired now = false) :
    KeycloakService.refreshGrant env now s =
      { result := Except.ok (KeycloakService.RefreshResult.token ts), state := s
        effects := [], logs := [] } := by
  simp [KeycloakService.refreshGrant, hts, hexp]

/-- Witness for C1 at a concrete state: `tsInit` expires at 50, the clock
is 10. -/
theorem refreshGrant_fresh_token_returned_unchanged_witness :
    KeycloakService.refreshGrant envAllOk 10 sWithToken =
      { result := Except.ok (KeycloakService.RefreshResult.token tsInit)
        state := sWithToken, effects := [], logs := [] } :=
  refreshGrant_fresh_token_returned_unchanged envAllOk 10 sWithToken tsInit rfl
    (by decide)

/-- C2: when no token set exists, or the token set is expired and its
refresh token is absent (in the JavaScript sense: `undefined` or empty),
`refreshGrant` returns `null`, leaves the state unchanged, performs no
network call, and logs an error. -/
theorem refreshGrant_missing_token_returns_null
    (env : Env) (now : Nat) (s : ServiceState)
    (h : s.tokenSet = none ∨
      ∃ ts, s.tokenSet = some ts ∧ ts.expired now = true ∧
        strTruthy ts.refresh_token = false) :
    (KeycloakService.refreshGrant env now s).result =
      Except.ok KeycloakService.RefreshResult.nullResult ∧
    (KeycloakService.refreshGrant env now s).state = s ∧
    (KeycloakService.refreshGrant env now s).effects = [] ∧
    ∃ m, (⟨LogLevel.error, m⟩ : LogEntry) ∈
      (KeycloakService.refreshGrant env now s).logs := by
  rcases h with h | ⟨ts, hts, hexp, hrt⟩
  · refine ⟨?_, ?_, ?_,
      ⟨"Token set is missing. Could not refresh grant.", ?_⟩⟩ <;>
      simp [KeycloakService.refreshGrant, h]
  · rcases hrt' : ts.refresh_token with _ | rt
    · refine ⟨?_, ?_, ?_,
        ⟨"Could not refresh token. Refresh token is missing.", ?_⟩⟩ <;>
        simp [KeycloakService.refreshGrant, hts, hexp, hrt']
    · have hempty : rt = "" := by
        rw [hrt'] at hrt
        simpa [strTruthy] using hrt
      subst hempty
      refine ⟨?_, ?_, ?_,
        ⟨"Could not refresh token. Refresh token is missing.", ?_⟩⟩ <;>
        simp [KeycloakService.refreshGrant, hts, hexp, hrt']

/-- Witness for C2 at a concrete state: the fresh state `s0` has no token
set. -/
theorem refreshGrant_missing_token_returns_null_witness :
    (KeycloakService.refreshGrant envAllOk 0 s0).result =
      Except.ok KeycloakService.RefreshResult.nullResult ∧
    (KeycloakService.refreshGrant envAllOk 0 s0).state = s0 ∧
    (KeycloakService.refreshGrant envAllOk 0 s0).effects = [] ∧
    ∃ m, (⟨LogLevel.error, m⟩ : LogEntry) ∈
      (KeycloakService.refreshGrant envAllOk 0 s0).logs :=
  refreshGrant_missing_token_returns_null envAllOk 0 s0 (Or.inl rfl)

/-- C4: the constructor throws exactly when the base URL lacks the
`http` prefix (which also covers `https`); with the prefix present it
performs no further validation of the URL and succeeds, storing the
options. -/
theorem construct_requires_http_scheme (options : KeycloakModuleOptions) :
    (jsStartsWith options.config.baseUrl "http" = false →
      KeycloakService.construct options =
        Except.error "Invalid base url. It should start with either http or https.") ∧
    (jsStartsWith options.config.baseUrl "http" = true →
      KeycloakService.construct options =
        Except.ok (KeycloakService.constructedState options) ∧
      (KeycloakService.constructedState options).options = options) := by
  constructor
  · intro h
    simp [KeycloakService.construct, h]
  · intro h
    exact ⟨by simp [KeycloakService.construct, h], rfl⟩

/-- Witness for C4: construction fails on an `ftp` base URL and succeeds
on an `http` one. -/
theorem construct_requires_http_scheme_witness :
    KeycloakService.construct optionsBadUrl =
      Except.error "Invalid base url. It should start with either http or https." ∧
    KeycloakService.construct options0 =
      Except.ok (KeycloakService.constructedState options0) :=
  ⟨(construct_requires_http_scheme optionsBadUrl).1 (by decide),
   ((construct_requires_http_scheme options0).2 (by decide)).1⟩

/-- C5: when the cached token set is expired, carries a refresh token,
the issuer client exists, and the refresh call returns a token set whose
access token is present, `refreshGrant` stores the new token set, updates
the admin client's bearer token to the new access token, and returns the
new token set. -/
theorem refreshGrant_success_updates_admin_token
    (env : Env) (now : Nat) (s : ServiceState) (ts newTs : TokenSet)
    (rt tok : String)
    (hts : s.tokenSet = some ts) (hexp : ts.expired now = true)
    (hrt : ts.refresh_token = some rt) (hne : rt ≠ "")
    (hic : s.issuerClient.isSome = true)
    (hre : env.refresh rt = Except.ok newTs)
    (hat : newTs.access_token = some tok) (htne : tok ≠ "") :
    KeycloakService.refreshGrant env now s =
      { result := Except.ok (KeycloakService.RefreshResult.token newTs)
        state := { s with tokenSet := some newTs, adminAccessToken := some tok }
        effects := [Effect.refreshCall]
        logs := [⟨LogLevel.verbose, "Grant token expired, refreshing."⟩] } := by
  rcases Option.isSome_iff_exists.mp hic with ⟨ic, hic'⟩
  have h1 : (rt == "") = false := beq_eq_false_iff_ne.mpr hne
  have h2 : strTruthy (some tok) = true := by
    simpa [strTruthy] using htne
  simp [KeycloakService.refreshGrant, hts, hexp, hrt, h1, hic', hre, h2, hat]

/-- Witness for C5: at time 100 the token `tsInit` (expiry 50) is
refreshed into `tsNew`, whose access token becomes the admin bearer
token. -/
theorem refreshGrant_success_updates_admin_token_witness :
    KeycloakService.refreshGrant envAllOk 100 sWithToken =
      { result := Except.ok (KeycloakService.RefreshResult.token tsNew)
        state := { sWithToken with
          tokenSet := some tsNew, adminAccessToken := some "tokenB" }
        effects := [Effect.refreshCall]
        logs := [⟨LogLevel.verbose, "Grant token expired, refreshing."⟩] } :=
  refreshGrant_success_updates_admin_token envAllOk 100 sWithToken tsInit tsNew
    "refreshA" "tokenB" rfl (by decide) rfl (by decide) rfl rfl rfl (by decide)

/-- C9: when the cached token set is expired and carries a refresh token
but the issuer client was never created, `refreshGrant` makes no refresh
call (its outcome does not depend on the environment), overwrites
`tokenSet` with `undefined`, leaves the admin bearer token unchanged, and
returns `undefined` without throwing. -/
theorem refreshGrant_no_issuer_overwrites_token
    (env env' : Env) (now : Nat) (s : ServiceState) (ts : TokenSet) (rt : String)
    (hts : s.tokenSet = some ts) (hexp : ts.expired now = true)
    (hrt : ts.refresh_token = some rt) (hne : rt ≠ "")
    (hic : s.issuerClient = none) :
    KeycloakService.refreshGrant env now s =
      { result := Except.ok KeycloakService.RefreshResult.undefinedResult
        state := { s with tokenSet := none }
        effects := []
        logs := [⟨LogLevel.verbose, "Grant token expired, refreshing."⟩] } ∧
    KeycloakService.refreshGrant env now s =
      KeycloakService.refreshGrant env' now s := by
  have h1 : (rt == "") = false := beq_eq_false_iff_ne.mpr hne
  constructor <;> simp [KeycloakService.refreshGrant, hts, hexp, hrt, h1, hic]

/-- Witness for C9: `sNoIssuer` holds the expired `tsInit` and no issuer
client; the outcome is the same under `envAllOk` and `envAuthFails`. -/
theorem refreshGrant_no_issuer_overwrites_token_witness :
    (KeycloakService.refreshGrant envAllOk 100 sNoIssuer =
      { result := Except.ok KeycloakService.RefreshResult.undefinedResult
        state := { sNoIssuer with tokenSet := none }
        effects := []
        logs := [⟨LogLevel.verbose, "Grant token expired, refreshing."⟩] }) ∧
    KeycloakService.refreshGrant envAllOk 100 sNoIssuer =
      KeycloakService.refreshGrant envAuthFails 100 sNoIssuer :=
  refreshGrant_no_issuer_overwrites_token envAllOk envAuthFails 100 sNoIssuer
    tsInit "refreshA" rfl (by decide) rfl (by decide) rfl

/-- C3: after a completed (successful) `initialize` call, a further call
with any environment is a no-op: it returns immediately, changes nothing,
performs no side effect and emits no log, so two calls perform the network
side effects only once. -/
theorem initialization_idempotent (env env' : Env) (s : ServiceState)
    (hok : (KeycloakService.initialization env s).result = Except.ok ()) :
    KeycloakService.initialization env'
        (KeycloakService.initialization env s).state =
      { result := Except.ok ()
        state := (KeycloakService.initialization env s).state
        effects := [], logs := [] } := by
  rcases hu : s.umaConfiguration with _ | d
  · rcases hf : env.fetchUma with e | d
    · simp [KeycloakService.initialization, hu, hf] at hok
    · rcases ha : env.adminAuth with e | u
      · simp [KeycloakService.initialization, hu, hf, ha] at hok
      · rcases hd : env.discoverIssuer d.issuer with e | u'
        · simp [KeycloakService.initialization, hu, hf, ha, hd] at hok
        · rcases hg : env.grant with e | ts
          · simp [KeycloakService.initialization, hu, hf, ha, hd, hg] at hok
          · simp [KeycloakService.initialization, hu, hf, ha, hd, hg]
  · simp [KeycloakService.initialization, hu]

/-- Witness for C3: a second `initialize` after a successful first one on
the fresh state `s0` is a no-op. -/
theorem initialization_idempotent_witness :
    KeycloakService.initialization envAllOk
        (KeycloakService.initialization envAllOk s0).state =
      { result := Except.ok ()
        state := (KeycloakService.initialization envAllOk s0).state
        effects := [], logs := [] } :=
  initialization_idempotent envAllOk envAllOk s0 rfl

/-- C6: a successful first `initialize` call (uninitialized state)
performs its steps in exactly this order: fetch the UMA configuration,
construct the resource and permission managers, authenticate the admin
client, discover the OIDC issuer, and acquire the initial token via a
client-credentials grant. -/
theorem initialization_first_call_effect_order (env : Env) (s : ServiceState)
    (hu : s.umaConfiguration = none)
    (hok : (KeycloakService.initialization env s).result = Except.ok ()) :
    (KeycloakService.initialization env s).effects =
      [Effect.fetchUmaConfiguration, Effect.constructManagers,
       Effect.adminAuth, Effect.discoverIssuer,
       Effect.grantClientCredentials] := by
  rcases hf : env.fetchUma with e | d
  · simp [KeycloakService.initialization, hu, hf] at hok
  · rcases ha : env.adminAuth with e | u
    · simp [KeycloakService.initialization, hu, hf, ha] at hok
    · rcases hd : env.discoverIssuer d.issuer with e | u'
      · simp [KeycloakService.initialization, hu, hf, ha, hd] at hok
      · rcases hg : env.grant with e | ts
        · simp [KeycloakService.initialization, hu, hf, ha, hd, hg] at hok
        · simp [KeycloakService.initialization, hu, hf, ha, hd, hg]

/-- Witness for C6: the effect order of the successful first call on the
fresh state `s0`. -/
theorem initialization_first_call_effect_order_witness :
    (KeycloakService.initialization envAllOk s0).effects =
      [Effect.fetchUmaConfiguration, Effect.constructManagers,
       Effect.adminAuth, Effect.discoverIssuer,
       Effect.grantClientCredentials] :=
  initialization_first_call_effect_order envAllOk s0 rfl rfl

/-- C10: the no-op guard of `initialize` only tests the UMA configuration
field.  If a first call on an uninitialized, token-less state fetches the
UMA configuration but then fails, the state keeps the UMA configuration
and no token set, and every subsequent `initialize` call — under any
environment — returns immediately without retrying, leaving the service
without a token set. -/
theorem initialization_partial_failure_leaves_no_token
    (env : Env) (s : ServiceState) (d : UMAConfiguration) (e : String)
    (hu : s.umaConfiguration = none) (hts : s.tokenSet = none)
    (hf : env.fetchUma = Except.ok d)
    (herr : (KeycloakService.initialization env s).result = Except.error e) :
    (KeycloakService.initialization env s).state.umaConfiguration = some d ∧
    (KeycloakService.initialization env s).state.tokenSet = none ∧
    ∀ env', KeycloakService.initialization env'
        (KeycloakService.initialization env s).state =
      { result := Except.ok ()
        state := (KeycloakService.initialization env s).state
        effects := [], logs := [] } := by
  rcases ha : env.adminAuth with e' | u
  · refine ⟨?_, ?_, fun env' => ?_⟩ <;>
      simp [KeycloakService.initialization, hu, hts, hf, ha]
  · rcases hd : env.discoverIssuer d.issuer with e' | u'
    · refine ⟨?_, ?_, fun env' => ?_⟩ <;>
        simp [KeycloakService.initialization, hu, hts, hf, ha, hd]
    · rcases hg : env.grant with e' | ts
      · refine ⟨?_, ?_, fun env' => ?_⟩ <;>
          simp [KeycloakService.initialization, hu, hts, hf, ha, hd, hg]
      · simp [KeycloakService.initialization, hu, hf, ha, hd, hg] at herr

/-- Witness for C10: under `envAuthFails` the first call fails after
caching the UMA configuration; a retry is a no-op and the token set stays
absent. -/
theorem initialization_partial_failure_leaves_no_token_witness :
    (KeycloakService.initialization envAuthFails s0).state.umaConfiguration =
      some uma0 ∧
    (KeycloakService.initialization envAuthFails s0).state.tokenSet = none ∧
    ∀ env', KeycloakService.initialization env'
        (KeycloakService.initialization envAuthFails s0).state =
      { result := Except.ok ()
        state := (KeycloakService.initialization envAuthFails s0).state
        effects := [], logs := [] } :=
  initialization_partial_failure_leaves_no_token envAuthFails s0 uma0
    "admin authentication failed" rfl rfl rfl rfl

/-- Counterexample to C7 as stated: with an expired token set that has a
refresh token but no issuer client, `refreshGrant` changes the `tokenSet`
field yet installs no new token record — the field becomes `undefined`. -/
theorem refreshGrant_replaces_token_with_undefined_cex :
    (KeycloakService.refreshGrant envAllOk 100 sNoIssuer).state.tokenSet = none ∧
    sNoIssuer.tokenSet = some tsInit :=
  ⟨rfl, rfl⟩

/-- C7 (amended): every operation that changes the `tokenSet` field
replaces it wholesale — with a token record obtained whole from the grant
or refresh call, or with `undefined` when the issuer client is absent
during a refresh; no operation builds the new value by mutating fields of
the existing record. -/
theorem tokenSet_replaced_wholesale (env : Env) (now : Nat) (s : ServiceState) :
    ((KeycloakService.initialization env s).state.tokenSet = s.tokenSet ∨
      ∃ newTs, env.grant = Except.ok newTs ∧
        (KeycloakService.initialization env s).state.tokenSet = some newTs) ∧
    ((KeycloakService.refreshGrant env now s).state.tokenSet = s.tokenSet ∨
      (s.issuerClient = none ∧
        (KeycloakService.refreshGrant env now s).state.tokenSet = none) ∨
      ∃ rt newTs, env.refresh rt = Except.ok newTs ∧
        (KeycloakService.refreshGrant env now s).state.tokenSet = some newTs) := by
  constructor
  · rcases hu : s.umaConfiguration with _ | d
    · rcases hf : env.fetchUma with e | d
      · exact Or.inl (by simp [KeycloakService.initialization, hu, hf])
      · rcases ha : env.adminAuth with e | u
        · exact Or.inl (by simp [KeycloakService.initialization, hu, hf, ha])
        · rcases hd : env.discoverIssuer d.issuer with e | u'
          · exact Or.inl (by
              simp [KeycloakService.initialization, hu, hf, ha, hd])
          · rcases hg : env.grant with e | ts
            · exact Or.inl (by
                simp [KeycloakService.initialization, hu, hf, ha, hd, hg])
            · exact Or.inr ⟨ts, rfl, by
                simp [KeycloakService.initialization, hu, hf, ha, hd, hg]⟩
    · exact Or.inl (by simp [KeycloakService.initialization, hu])
  · rcases hts : s.tokenSet with _ | ts
    · exact Or.inl (by simp [KeycloakService.refreshGrant, hts])
    · cases hexp : ts.expired now
      · exact Or.inl (by simp [KeycloakService.refreshGrant, hts, hexp])
      · rcases hrt : ts.refresh_token with _ | rt
        · exact Or.inl (by simp [KeycloakService.refreshGrant, hts, hexp, hrt])
        · cases hrte : rt == ""
          · rcases hic : s.issuerClient with _ | ic
            · exact Or.inr (Or.inl ⟨rfl, by
                simp [KeycloakService.refreshGrant, hts, hexp, hrt, hrte, hic]⟩)
            · rcases hre : env.refresh rt with e | newTs
              · exact Or.inl (by
                  simp [KeycloakService.refreshGrant, hts, hexp, hrt, hrte,
                    hic, hre])
              · refine Or.inr (Or.inr ⟨rt, newTs, hre, ?_⟩)
                cases hta : strTruthy newTs.access_token <;>
                  simp [KeycloakService.refreshGrant, hts, hexp, hrt, hrte,
                    hic, hre, hta]
          · exact Or.inl (by
              simp [KeycloakService.refreshGrant, hts, hexp, hrt, hrte])

/-- C8: in every state reachable from construction through `initialize`
and `refreshGrant` calls, the `options` field still equals the value
given to the constructor. -/
theorem options_immutable_on_reachable (options : KeycloakModuleOptions)
    (s : ServiceState) (h : Reachable options s) : s.options = options := by
  induction h with
  | constructed s hc =>
    unfold KeycloakService.construct at hc
    split at hc
    · cases hc
      rfl
    · cases hc
  | initStep env s h ih =>
    rw [initialization_preserves_options]
    exact ih
  | refreshStep env now s h ih =>
    rw [refreshGrant_preserves_options]
    exact ih

/-- Witness for C8 at the constructed state for `options0`. -/
theorem options_immutable_on_reachable_witness :
    (KeycloakService.constructedState options0).options = options0 :=
  options_immutable_on_reachable options0
    (KeycloakService.constructedState options0)
    (Reachable.constructed _ (by
      have h : jsStartsWith options0.config.baseUrl "http" = true := by decide
      simp [KeycloakService.construct, h]))

end KeycloakAdmin
